import Mathlib

/-!
Shallow embedding of `generate.py` (Plymouth theme generator).

The program is a single linear pipeline:
configuration load/merge -> asset validation -> build-directory
preparation -> descriptor write -> frame extraction -> script write.
Every function below is translated from the corresponding Python
function; filesystem state and observable effects are passed explicitly
through a `RunState`, and `sys.exit` / uncaught exceptions are modelled
by an error-carrying result type `Res` that keeps the state reached at
the moment of termination.

Python floats (the probed video duration) are modelled as exact
rationals; `int(x)` on a float is truncation toward zero (`pyInt`).
-/

namespace Plymouth

/-- Python `int(x)` applied to a (non-negative or negative) real-valued
number: truncation toward zero, modelled on rationals. -/
def pyInt (q : ℚ) : ℤ := if 0 ≤ q then ⌊q⌋ else ⌈q⌉

/-- Result of `ffmpeg.probe` on the input video, fields as read on
lines 96-99 of `generate.py`: `duration` (a float, modelled as an exact
rational), `width`, `height`, `nb_frames`. -/
structure ProbeResult where
  duration : ℚ
  width : ℤ
  height : ℤ
  nb_frames : ℕ
deriving Repr, DecidableEq

/-- Line 100: `source_fps = int(nb_frames / time)` (Python float
division then truncation toward zero). -/
def sourceFps (pr : ProbeResult) : ℤ := pyInt ((pr.nb_frames : ℚ) / pr.duration)

/-- Line 103: `number_of_extracts = int(time) * fps`. -/
def estimatedExtracts (pr : ProbeResult) (fps : ℕ) : ℤ := pyInt pr.duration * (fps : ℤ)

/-! ### JSON-like configuration dictionaries (lines 199-236) -/

/-- JSON-like value as loaded by `json.load`: the configuration uses
strings, numbers and one level of nested objects. -/
inductive JValue where
  | str (s : String)
  | num (q : ℚ)
  | obj (fields : List (String × JValue))

/-- A Python dict with string keys, as an association list.  The dicts
built by the program (JSON objects, literal dicts) have unique keys. -/
abbrev JDict := List (String × JValue)

/-- Dictionary lookup `d[k]` (first matching key). -/
def JDict.get (d : JDict) (k : String) : Option JValue :=
  match d with
  | [] => none
  | (k', v) :: rest => if k' = k then some v else JDict.get rest k

/-- Dictionary assignment `d[k] = v`: replace the first binding of `k`,
or append a new binding. -/
def JDict.set (d : JDict) (k : String) (v : JValue) : JDict :=
  match d with
  | [] => [(k, v)]
  | (k', v') :: rest => if k' = k then (k, v) :: rest else (k', v') :: JDict.set rest k v

/-- Line 236: `configuration.update(custom_configuration)` — Python's
`dict.update`, a top-level shallow overwrite of `base` by every
key/value pair of `user`. -/
def pyUpdate (base user : JDict) : JDict :=
  user.foldl (fun acc kv => JDict.set acc kv.1 kv.2) base

/-- The built-in default configuration dict of `main` (lines 199-219).
The float `0.6` is the exact rational 3/5. -/
def defaultConfiguration : JDict :=
  [ ("name", .str "custom"),
    ("description", .str "A custom theme for Plymouth"),
    ("theme_directory", .str "/usr/share/plymouth/themes"),
    ("source", .str "./source"),
    ("build", .str "./build"),
    ("animation", .str "animation.mp4"),
    ("fps", .num 25),
    ("dialog", .obj
      [ ("box", .str "box.png"),
        ("entry", .str "entry.png"),
        ("bullet", .str "bullet.png"),
        ("lock", .str "lock.png"),
        ("ratio", .num (3/5)) ]),
    ("progression", .obj
      [ ("bar", .str "progress_bar.png"),
        ("box", .str "progress_box.png"),
        ("ratio", .num (3/5)) ]) ]

/-! ### The configuration fields the pipeline reads

The pipeline reads `configuration["name"]`, `["description"]`,
`["theme_directory"]`, `["source"]`, `["build"]`, `["animation"]`,
`["fps"]`, and inside the nested dicts `dialog["box"/"entry"/"bullet"/
"lock"]` and `progression["box"/"bar"]`.  The two `"ratio"` entries are
never read by `generate.py`.  We collect the read fields in a record;
`extractConfig` performs exactly these lookups (Python performs them
lazily at the use sites and raises `KeyError` when one is absent — in
the model a failed extraction aborts the run with an exception). -/

/-- The `dialog` fields read by `check_input_assets` (lines 66-70). -/
structure DialogConfig where
  box : String
  entry : String
  bullet : String
  lock : String
deriving Repr, DecidableEq

/-- The `progression` fields read by `check_input_assets` (lines 71-73). -/
structure ProgressionConfig where
  bar : String
  box : String
deriving Repr, DecidableEq

/-- The configuration fields read by the pipeline. -/
structure Config where
  name : String
  description : String
  theme_directory : String
  source : String
  build : String
  animation : String
  fps : ℕ
  dialog : DialogConfig
  progression : ProgressionConfig
deriving Repr, DecidableEq

/-- String payload of a JSON value, `none` when it is not a string. -/
def JValue.asStr : JValue → Option String
  | .str s => some s
  | _ => none

/-- Natural-number payload of a JSON value (the `fps` field holds a
non-negative integer). -/
def JValue.asNat : JValue → Option ℕ
  | .num q => if q.den = 1 ∧ 0 ≤ q.num then some q.num.toNat else none
  | _ => none

/-- Object payload of a JSON value. -/
def JValue.asObj : JValue → Option JDict
  | .obj fields => some fields
  | _ => none

/-- Look up a string field of a dict. -/
def jGetStr (d : JDict) (k : String) : Option String :=
  (JDict.get d k).bind JValue.asStr

/-- Look up a natural-number field of a dict. -/
def jGetNat (d : JDict) (k : String) : Option ℕ :=
  (JDict.get d k).bind JValue.asNat

/-- Look up a nested-object field of a dict. -/
def jGetObj (d : JDict) (k : String) : Option JDict :=
  (JDict.get d k).bind JValue.asObj

/-- Gather the configuration fields the pipeline reads out of the merged
dict (Python does these lookups lazily at the use sites). -/
def extractConfig (d : JDict) : Option Config :=
  match jGetStr d "name", jGetStr d "description", jGetStr d "theme_directory",
      jGetStr d "source", jGetStr d "build", jGetStr d "animation", jGetNat d "fps" with
  | some name, some description, some theme_directory, some source,
      some build, some animation, some fps =>
    match jGetObj d "dialog", jGetObj d "progression" with
    | some dialog, some progression =>
      match jGetStr dialog "box", jGetStr dialog "entry", jGetStr dialog "bullet",
          jGetStr dialog "lock", jGetStr progression "bar", jGetStr progression "box" with
      | some dbox, some dentry, some dbullet, some dlock, some pbar, some pbox =>
        some
          { name := name, description := description,
            theme_directory := theme_directory, source := source,
            build := build, animation := animation, fps := fps,
            dialog := { box := dbox, entry := dentry, bullet := dbullet, lock := dlock },
            progression := { bar := pbar, box := pbox } }
      | _, _, _, _, _, _ => none
    | _, _ => none
  | _, _, _, _, _, _, _ => none

/-- The record form of the built-in default configuration. -/
def defaultRecord : Config :=
  { name := "custom", description := "A custom theme for Plymouth",
    theme_directory := "/usr/share/plymouth/themes", source := "./source",
    build := "./build", animation := "animation.mp4", fps := 25,
    dialog := { box := "box.png", entry := "entry.png",
                bullet := "bullet.png", lock := "lock.png" },
    progression := { bar := "progress_bar.png", box := "progress_box.png" } }

/-! ### Observable effects and run state -/

/-- Observable events of a run, in program order:
`assetCheck p` is the availability line printed by `check_file_exists`
for a validated path; `dirCreate` is `os.makedirs`; `fileWrite` is an
`open(..., "w")` / `write` of a whole file; `frameExtraction` is the
synchronous external resample invocation of lines 106-108. -/
inductive Event where
  | assetCheck (path : String)
  | dirCreate (path : String)
  | fileWrite (path : String) (content : String)
  | frameExtraction (video : String) (outDir : String) (fps : ℕ)
deriving Repr, DecidableEq

/-- How a run terminates abnormally: `exit c` is `sys.exit(c)`;
`exn` is an uncaught Python exception (itself a non-zero process
exit). -/
inductive PyExit where
  | exit (code : ℤ)
  | exn (msg : String)
deriving Repr, DecidableEq

/-- Filesystem and trace state threaded through the pipeline. -/
structure RunState where
  files : List String
  dirs : List String
  trace : List Event
deriving Repr, DecidableEq

/-- Python `os.path.exists`. -/
def RunState.pathExists (s : RunState) (p : String) : Bool :=
  s.files.contains p || s.dirs.contains p

/-- Python `os.path.isfile`. -/
def RunState.isFile (s : RunState) (p : String) : Bool :=
  s.files.contains p

/-- Append one observable event to the trace. -/
def RunState.log (s : RunState) (e : Event) : RunState :=
  { s with trace := s.trace ++ [e] }

/-- Record a whole-file write: the path now exists as a file and the
write is logged. -/
def RunState.write (s : RunState) (path content : String) : RunState :=
  { s with files := path :: s.files, trace := s.trace ++ [.fileWrite path content] }

/-- Result of a pipeline step: either a value with the updated state, or
abnormal termination carrying the state reached at that moment. -/
inductive Res (α : Type) where
  | ok (a : α) (s : RunState)
  | fail (e : PyExit) (s : RunState)
deriving Repr, DecidableEq

/-- Sequencing of pipeline steps: a failure short-circuits. -/
def Res.bind {α β : Type} (r : Res α) (f : α → RunState → Res β) : Res β :=
  match r with
  | .ok a s => f a s
  | .fail e s => .fail e s

/-- State reached by a step, whether it succeeded or failed. -/
def Res.state {α : Type} : Res α → RunState
  | .ok _ s => s
  | .fail _ s => s

/-- Did the step succeed? -/
def Res.isOk {α : Type} : Res α → Bool
  | .ok _ _ => true
  | .fail _ _ => false

/-- The environment of a run: the initial filesystem, the configuration
files readable from disk (`none` models `FileNotFoundError`; a found
file yields its parsed JSON), the video-probe oracle (`none` models a
probe failure raised by the external tool), and the behaviour of the
external resampler: `ffmpegStart` is the first index substituted for
`%d` in the output pattern (the image2 muxer's `start_number`, whose
documented default is 1) and `actualFrames` the number of frames it
actually emits. -/
structure World where
  files : List String
  dirs : List String
  readConfig : String → Option JDict
  probe : String → Option ProbeResult
  ffmpegStart : ℕ
  actualFrames : ℕ

/-- Initial run state taken from the world. -/
def initState (w : World) : RunState :=
  { files := w.files, dirs := w.dirs, trace := [] }

/-! ### The pipeline functions of `generate.py` -/

/-- Lines 14-33, `prepare_build_directory(path)`. -/
def prepare_build_directory (path : String) (s : RunState) : Res Unit :=
  if s.pathExists path then
    if s.isFile path then .fail (.exit (-1)) s
    else .ok () s
  else .ok () { s with dirs := path :: s.dirs, trace := s.trace ++ [.dirCreate path] }

/-- Lines 36-49, `check_file_exists(path)`. -/
def check_file_exists (path : String) (s : RunState) : Res Unit :=
  if !(s.pathExists path && s.isFile path) then .fail (.exit (-1)) s
  else .ok () (s.log (.assetCheck path))

/-- Lines 52-73, `check_input_assets(configuration)`. -/
def check_input_assets (c : Config) (s : RunState) : Res Unit :=
  if !(s.pathExists c.source) || s.isFile c.source then .fail (.exit (-1)) s
  else
    Res.bind (check_file_exists (c.source ++ "/" ++ c.animation) s) fun _ s =>
    Res.bind (check_file_exists (c.source ++ "/" ++ c.dialog.box) s) fun _ s =>
    Res.bind (check_file_exists (c.source ++ "/" ++ c.dialog.entry) s) fun _ s =>
    Res.bind (check_file_exists (c.source ++ "/" ++ c.dialog.bullet) s) fun _ s =>
    Res.bind (check_file_exists (c.source ++ "/" ++ c.dialog.lock) s) fun _ s =>
    Res.bind (check_file_exists (c.source ++ "/" ++ c.progression.box) s) fun _ s =>
    check_file_exists (c.source ++ "/" ++ c.progression.bar) s

/-- Name of the `k`-th frame image file, from the output pattern
`animation_frame_%d.png` of line 107 (without directory). -/
def frameName (k : ℕ) : String := "animation_frame_" ++ toString k ++ ".png"

/-- Relative names of the frame files the external resampler emits for
the pattern of line 107: indices start at the tool's `start_number`. -/
def emittedFrameNames (w : World) : List String :=
  (List.range w.actualFrames).map (fun k => frameName (w.ffmpegStart + k))

/-- Full paths of the emitted frame files under the output directory. -/
def emittedFrameFiles (w : World) (outDir : String) : List String :=
  (emittedFrameNames w).map (fun n => outDir ++ "/" ++ n)

/-- Lines 76-110, `extract_frames_from_video(video_path, output_path,
fps)`.  `ffmpeg.probe` failure raises; a zero duration would raise
`ZeroDivisionError` on line 100.  On success the external resampler
deposits its frame files and the function returns the line-103
estimate. -/
def extract_frames_from_video (w : World) (video_path output_path : String)
    (fps : ℕ) (s : RunState) : Res ℤ :=
  match w.probe video_path with
  | none => .fail (.exn "ffmpeg probe failed") s
  | some pr =>
    if pr.duration = 0 then .fail (.exn "ZeroDivisionError") s
    else
      .ok (estimatedExtracts pr fps)
        { s with files := emittedFrameFiles w output_path ++ s.files,
                 trace := s.trace ++ [.frameExtraction video_path output_path fps] }

/-- Content written by `write_plymouth_file` (lines 126-136). -/
def plymouthFileContent (c : Config) : String :=
  "[Plymouth Theme]\n" ++
  "Name=" ++ c.name ++ "\n" ++
  "Description=" ++ c.description ++ "\n" ++
  "ModuleName=script\n\n" ++
  "[script]\n" ++
  "ImageDir=" ++ c.theme_directory ++ "/" ++ c.name ++ "\n" ++
  "ScriptFile=" ++ c.theme_directory ++ "/" ++ c.name ++ "/" ++ c.name ++ ".script\n"

/-- Lines 113-138, `write_plymouth_file(configuration)`. -/
def write_plymouth_file (c : Config) (s : RunState) : RunState :=
  s.write (c.build ++ "/" ++ c.name ++ ".plymouth") (plymouthFileContent c)

/-- Content written by `write_plymouth_script` (lines 157-165). -/
def plymouthScriptContent (frame_count : ℤ) : String :=
  "for (i = 0; i < " ++ toString frame_count ++ "; i++)\n" ++
  "   animation_image[i] = Image(\"animation_frame_\" + i + \".png\");\n" ++
  "animation_sprite = Sprite();\n\n" ++
  "animation_sprite.SetX(Window.GetWidth() / 2 - animation_image[0].GetWidth() / 2);\n" ++
  "animation_sprite.SetY(Window.GetHeight() / 2 - animation_image[0].GetHeight() / 2);\n"

/-- Lines 141-167, `write_plymouth_script(configuration, frame_count)`. -/
def write_plymouth_script (c : Config) (frame_count : ℤ) (s : RunState) : RunState :=
  s.write (c.build ++ "/" ++ c.name ++ ".script") (plymouthScriptContent frame_count)

/-- Lines 170-189, `build_theme(configuration)`: validation, build
directory, theme file, frame extraction, script file — in that order. -/
def build_theme (w : World) (c : Config) (s : RunState) : Res Unit :=
  Res.bind (check_input_assets c s) fun _ s =>
  Res.bind (prepare_build_directory c.build s) fun _ s =>
  Res.bind (Res.ok () (write_plymouth_file c s)) fun _ s =>
  Res.bind (extract_frames_from_video w (c.source ++ "/" ++ c.animation) c.build c.fps s)
    fun number_of_extracts s =>
  .ok () (write_plymouth_script c number_of_extracts s)

/-! ### Command line and `main` (lines 192-251) -/

/-- How `getopt.getopt(argv, "c:")` treats one argument word:
the `--` terminator, a `-c` option (with an attached value as in
`-cpath`, or expecting the next word as its value), an unrecognized
option word (raising `GetoptError`), or a non-option word (including a
lone `-`) at which parsing stops. -/
inductive ArgKind where
  | terminator
  | copt (value : Option String)
  | badopt
  | nonopt

/-- Classify one argument word by its characters. -/
def classifyArg (a : String) : ArgKind :=
  match a.data with
  | '-' :: c :: cs =>
    if c = '-' && cs.isEmpty then .terminator
    else if c = 'c' then
      match cs with
      | [] => .copt none
      | _ :: _ => .copt (some (String.mk cs))
    else .badopt
  | _ => .nonopt

/-- Worker for the `getopt` model: the Bool flag records that the
previous word was a bare `-c` still waiting for its value. -/
def getoptGo : Bool → List String → Except Unit (List (String × String))
  | false, [] => .ok []
  | true, [] => .error ()
  | true, v :: rest => (getoptGo false rest).map (fun l => ("-c", v) :: l)
  | false, a :: rest =>
    match classifyArg a with
    | .terminator => .ok []
    | .nonopt => .ok []
    | .badopt => .error ()
    | .copt (some v) => (getoptGo false rest).map (fun l => ("-c", v) :: l)
    | .copt none => getoptGo true rest

/-- Model of `getopt.getopt(argv, "c:")`: each `-c` option consumes a
value; any unrecognized option word raises `GetoptError` (modelled as
`.error ()`); parsing stops at the first non-option word or at `--`. -/
def getoptC (args : List String) : Except Unit (List (String × String)) :=
  getoptGo false args

/-- The option loop of lines 227-230: the last `-c` occurrence wins;
without one, the path stays `config.json` and the file is not treated
as explicitly requested. -/
def chooseConfigFile (opts : List (String × String)) : Bool × String :=
  opts.foldl (fun acc ov => if ov.1 = "-c" then (true, ov.2) else acc)
    (false, "config.json")

/-- Run `build_theme` on a merged configuration dict (line 251).  Python
reads the dict fields lazily and raises `KeyError`/`TypeError` on a
malformed configuration; the model gathers the same reads up front. -/
def runWithDict (w : World) (d : JDict) : Res Unit :=
  match extractConfig d with
  | some c => build_theme w c (initState w)
  | none => .fail (.exn "KeyError") (initState w)

/-- Lines 192-251, `main()`: parse options (exit 1 on `GetoptError`),
read the configuration file (exit 2 when an explicitly requested file
is absent, fall back to the defaults when the implicit `config.json` is
absent), merge with `dict.update`, and build the theme. -/
def mainRun (w : World) (argv : List String) : Res Unit :=
  match getoptC argv with
  | .error _ => .fail (.exit 1) (initState w)
  | .ok opts =>
    let cf := chooseConfigFile opts
    match w.readConfig cf.2 with
    | some user => runWithDict w (pyUpdate defaultConfiguration user)
    | none =>
      if cf.1 then .fail (.exit 2) (initState w)
      else runWithDict w defaultConfiguration

/-! ### Trace observations -/

/-- Events that create output artifacts: directory creation, file
writes, the external frame emission. -/
def Event.isOutput : Event → Bool
  | .dirCreate _ => true
  | .fileWrite _ _ => true
  | .frameExtraction _ _ _ => true
  | .assetCheck _ => false

/-- Events that produce files: text-file writes and the external frame
emission. -/
def Event.isFileOp : Event → Bool
  | .fileWrite _ _ => true
  | .frameExtraction _ _ _ => true
  | _ => false

/-- Is this event an asset-validation print? -/
def Event.isAssetCheck : Event → Bool
  | .assetCheck _ => true
  | _ => false

/-- The files written by `open(..., "w")` during a trace, with their
contents, in order. -/
def writtenFiles (t : List Event) : List (String × String) :=
  t.filterMap fun e =>
    match e with
    | .fileWrite p c => some (p, c)
    | _ => none

/-- Index of the first write to path `p` in a trace. -/
def writeIdx (t : List Event) (p : String) : Option ℕ :=
  t.findIdx? fun e =>
    match e with
    | .fileWrite q _ => q = p
    | _ => false

/-- Index of the frame-extraction event in a trace. -/
def extractionIdx (t : List Event) : Option ℕ :=
  t.findIdx? fun e =>
    match e with
    | .frameExtraction _ _ _ => true
    | _ => false

/-- The required asset files of a configuration, in the order
`check_input_assets` checks them. -/
def requiredAssetPaths (c : Config) : List String :=
  [ c.source ++ "/" ++ c.animation,
    c.source ++ "/" ++ c.dialog.box,
    c.source ++ "/" ++ c.dialog.entry,
    c.source ++ "/" ++ c.dialog.bullet,
    c.source ++ "/" ++ c.dialog.lock,
    c.source ++ "/" ++ c.progression.box,
    c.source ++ "/" ++ c.progression.bar ]

/-- The source directory exists and is a directory (line 62 passes). -/
def sourceDirValid (c : Config) (s : RunState) : Prop :=
  s.pathExists c.source = true ∧ s.isFile c.source = false

/-- Every required asset is present: valid source directory and every
required file existing as a file. -/
def allAssetsPresent (c : Config) (s : RunState) : Prop :=
  sourceDirValid c s ∧
  ∀ p ∈ requiredAssetPaths c, s.pathExists p = true ∧ s.isFile p = true

/-- Some required asset is missing. -/
def missingRequiredAsset (c : Config) (s : RunState) : Prop :=
  ¬ allAssetsPresent c s

instance decSourceDirValid (c : Config) (s : RunState) : Decidable (sourceDirValid c s) := by
  unfold sourceDirValid
  infer_instance

instance decAllAssetsPresent (c : Config) (s : RunState) : Decidable (allAssetsPresent c s) := by
  unfold allAssetsPresent
  infer_instance

instance decMissingRequiredAsset (c : Config) (s : RunState) :
    Decidable (missingRequiredAsset c s) := by
  unfold missingRequiredAsset
  infer_instance

/-- Images the generated animation script loads, read off the loop
`for (i = 0; i < frame_count; i++) animation_image[i] = ...` of
`plymouthScriptContent`: indices 0 through frame_count - 1. -/
def scriptReferencedImages (frame_count : ℤ) : List String :=
  (List.range frame_count.toNat).map frameName

/-! ### Concrete environments used to instantiate the theorems -/

/-- A state extends another by asset-availability prints only:
filesystem unchanged, trace grown by `assetCheck` events. -/
def OnlyChecks (s s' : RunState) : Prop :=
  s'.files = s.files ∧ s'.dirs = s.dirs ∧
  ∃ t, s'.trace = s.trace ++ t ∧ ∀ e ∈ t, Event.isAssetCheck e = true

/-- The asset files required by the built-in default configuration. -/
def assetFilesDefault : List String :=
  [ "./source/animation.mp4", "./source/box.png", "./source/entry.png",
    "./source/bullet.png", "./source/lock.png", "./source/progress_box.png",
    "./source/progress_bar.png" ]

/-- A probe result for a 10-second, 300-frame, 320x240 video. -/
def probeTen : ProbeResult :=
  { duration := 10, width := 320, height := 240, nb_frames := 300 }

/-- Probe oracle knowing only the default animation video. -/
def probeOracle : String → Option ProbeResult := fun p =>
  if p = "./source/animation.mp4" then some probeTen else none

/-- A healthy first-run environment: all default assets present, no
`config.json`, no build directory yet, a 10-second video, and the
external resampler at its documented defaults (`start_number` 1),
emitting 3 frames. -/
def wOk : World :=
  { files := assetFilesDefault, dirs := ["./source"],
    readConfig := fun _ => none, probe := probeOracle,
    ffmpegStart := 1, actualFrames := 3 }

/-- The same environment on a second run: the build directory already
exists. -/
def wOk2 : World := { wOk with dirs := ["./source", "./build"] }

/-- The same environment with the build path occupied by a regular
file. -/
def wFileBuild : World := { wOk with files := "./build" :: assetFilesDefault }

/-- An environment with a source directory but no asset files at all. -/
def wEmpty : World :=
  { files := [], dirs := ["./source"], readConfig := fun _ => none,
    probe := fun _ => none, ffmpegStart := 1, actualFrames := 0 }

/-- A user configuration file containing only `{"name": "foo"}`. -/
def fooOverride : JDict := [("name", JValue.str "foo")]

/-- The configuration record obtained from the defaults overridden by
`fooOverride`. -/
def fooRecord : Config := { defaultRecord with name := "foo" }

/-- The healthy environment with that override present as
`config.json`. -/
def wFoo : World :=
  { wOk with readConfig := fun p => if p = "config.json" then some fooOverride else none }

/-- The healthy environment with the resampler emitting 250 frames
(10 s at 25 fps), still numbering them from its default start index 1. -/
def wBug : World := { wOk with actualFrames := 250 }

/-- A user configuration file whose `dialog` object carries only a
`box` entry. -/
def dialogPartialOverride : JDict :=
  [("dialog", JValue.obj [("box", JValue.str "b.png")])]

/-- A bare state in which the build path exists as a regular file. -/
def stFileBuild : RunState := { files := ["./build"], dirs := [], trace := [] }

/-! ### Basic lemmas about the run state -/

@[simp] lemma log_files (s : RunState) (e : Event) : (s.log e).files = s.files := rfl

@[simp] lemma log_dirs (s : RunState) (e : Event) : (s.log e).dirs = s.dirs := rfl

@[simp] lemma log_trace (s : RunState) (e : Event) : (s.log e).trace = s.trace ++ [e] := rfl

@[simp] lemma log_pathExists (s : RunState) (e : Event) (p : String) :
    (s.log e).pathExists p = s.pathExists p := rfl

@[simp] lemma log_isFile (s : RunState) (e : Event) (p : String) :
    (s.log e).isFile p = s.isFile p := rfl

lemma onlyChecks_refl (s : RunState) : OnlyChecks s s :=
  ⟨rfl, rfl, [], by simp, by simp⟩

lemma onlyChecks_log (s s' : RunState) (p : String) (h : OnlyChecks s s') :
    OnlyChecks s (s'.log (.assetCheck p)) := by
  obtain ⟨hf, hd, t, ht, hall⟩ := h
  refine ⟨hf, hd, t ++ [.assetCheck p], by simp [ht], ?_⟩
  intro e he
  rcases List.mem_append.mp he with h1 | h1
  · exact hall e h1
  · simp only [List.mem_singleton] at h1
    subst h1; rfl

lemma onlyChecks_pathExists (s s' : RunState) (p : String) (h : OnlyChecks s s') :
    s'.pathExists p = s.pathExists p := by
  simp [RunState.pathExists, h.1, h.2.1]

lemma onlyChecks_isFile (s s' : RunState) (p : String) (h : OnlyChecks s s') :
    s'.isFile p = s.isFile p := by
  simp [RunState.isFile, h.1]

/-- Asset-check events carry no output artifacts. -/
lemma filter_isOutput_of_checks (t : List Event)
    (h : ∀ e ∈ t, Event.isAssetCheck e = true) : t.filter Event.isOutput = [] := by
  induction t with
  | nil => simp
  | cons e t ih =>
    have he := h e (by simp)
    cases e <;> simp_all [Event.isAssetCheck, Event.isOutput]

lemma filter_isFileOp_of_checks (t : List Event)
    (h : ∀ e ∈ t, Event.isAssetCheck e = true) : t.filter Event.isFileOp = [] := by
  induction t with
  | nil => simp
  | cons e t ih =>
    have he := h e (by simp)
    cases e <;> simp_all [Event.isAssetCheck, Event.isFileOp]

lemma writtenFiles_append (t t' : List Event) :
    writtenFiles (t ++ t') = writtenFiles t ++ writtenFiles t' := by
  simp [writtenFiles]

lemma writtenFiles_nil : writtenFiles [] = [] := rfl

lemma writtenFiles_dirCreate (p : String) : writtenFiles [Event.dirCreate p] = [] := rfl

lemma writtenFiles_of_checks (t : List Event)
    (h : ∀ e ∈ t, Event.isAssetCheck e = true) : writtenFiles t = [] := by
  induction t with
  | nil => simp [writtenFiles]
  | cons e t ih =>
    have he := h e (by simp)
    cases e <;> simp_all [Event.isAssetCheck, writtenFiles]

/-! ### Case analyses of the pipeline components -/

lemma check_file_exists_cases (p : String) (s : RunState) :
    (check_file_exists p s = .fail (.exit (-1)) s ∧
      ¬(s.pathExists p = true ∧ s.isFile p = true)) ∨
    (check_file_exists p s = .ok () (s.log (.assetCheck p)) ∧
      s.pathExists p = true ∧ s.isFile p = true) := by
  cases hA : s.pathExists p <;> cases hB : s.isFile p <;>
    simp [check_file_exists, hA, hB]

lemma pathExists_of_isFile (s : RunState) (p : String) (h : s.isFile p = true) :
    s.pathExists p = true := by
  unfold RunState.isFile at h
  unfold RunState.pathExists
  rw [h, Bool.true_or]

lemma prepare_build_directory_fail_of_isFile (p : String) (s : RunState)
    (h : s.isFile p = true) : prepare_build_directory p s = .fail (.exit (-1)) s := by
  simp [prepare_build_directory, pathExists_of_isFile s p h, h]

lemma prepare_build_directory_cases (p : String) (s : RunState) :
    (prepare_build_directory p s = .fail (.exit (-1)) s ∧ s.isFile p = true) ∨
    (∃ s', prepare_build_directory p s = .ok () s' ∧ s'.files = s.files ∧
      ((s'.dirs = s.dirs ∧ s'.trace = s.trace) ∨
       (s'.dirs = p :: s.dirs ∧ s'.trace = s.trace ++ [.dirCreate p]))) := by
  cases hF : s.isFile p with
  | true => exact Or.inl ⟨prepare_build_directory_fail_of_isFile p s hF, rfl⟩
  | false =>
    right
    cases hE : s.pathExists p with
    | true => exact ⟨s, by simp [prepare_build_directory, hE, hF], rfl, Or.inl ⟨rfl, rfl⟩⟩
    | false =>
      exact ⟨{ s with dirs := p :: s.dirs, trace := s.trace ++ [.dirCreate p] },
        by simp [prepare_build_directory, hE], rfl, Or.inr ⟨rfl, rfl⟩⟩

lemma check_input_assets_cases (c : Config) (s : RunState) :
    (∃ s', check_input_assets c s = .fail (.exit (-1)) s' ∧ OnlyChecks s s') ∨
    (∃ s', check_input_assets c s = .ok () s' ∧ OnlyChecks s s' ∧ allAssetsPresent c s) := by
  unfold check_input_assets
  cases hsrc : (!(s.pathExists c.source) || s.isFile c.source) with
  | true => exact Or.inl ⟨s, by simp, onlyChecks_refl s⟩
  | false =>
    have hvalid : s.pathExists c.source = true ∧ s.isFile c.source = false := by
      constructor
      · cases hps : s.pathExists c.source
        · rw [hps] at hsrc; simp at hsrc
        · rfl
      · cases hif : s.isFile c.source
        · rfl
        · rw [hif] at hsrc; simp at hsrc
    simp only [Bool.false_eq_true, if_false]
    rcases check_file_exists_cases (c.source ++ "/" ++ c.animation) s with ⟨he1, _⟩ | ⟨he1, hp1, hq1⟩
    · exact Or.inl ⟨s, by simp only [he1, Res.bind], onlyChecks_refl s⟩
    rw [he1]; simp only [Res.bind]
    have oc1 := onlyChecks_log s s (c.source ++ "/" ++ c.animation) (onlyChecks_refl s)
    set s1 := s.log (.assetCheck (c.source ++ "/" ++ c.animation)) with hs1
    rcases check_file_exists_cases (c.source ++ "/" ++ c.dialog.box) s1 with ⟨he2, _⟩ | ⟨he2, hp2, hq2⟩
    · exact Or.inl ⟨s1, by simp only [he2, Res.bind], oc1⟩
    rw [he2]; simp only [Res.bind]
    have oc2 := onlyChecks_log s s1 (c.source ++ "/" ++ c.dialog.box) oc1
    set s2 := s1.log (.assetCheck (c.source ++ "/" ++ c.dialog.box)) with hs2
    rcases check_file_exists_cases (c.source ++ "/" ++ c.dialog.entry) s2 with ⟨he3, _⟩ | ⟨he3, hp3, hq3⟩
    · exact Or.inl ⟨s2, by simp only [he3, Res.bind], oc2⟩
    rw [he3]; simp only [Res.bind]
    have oc3 := onlyChecks_log s s2 (c.source ++ "/" ++ c.dialog.entry) oc2
    set s3 := s2.log (.assetCheck (c.source ++ "/" ++ c.dialog.entry)) with hs3
    rcases check_file_exists_cases (c.source ++ "/" ++ c.dialog.bullet) s3 with ⟨he4, _⟩ | ⟨he4, hp4, hq4⟩
    · exact Or.inl ⟨s3, by simp only [he4, Res.bind], oc3⟩
    rw [he4]; simp only [Res.bind]
    have oc4 := onlyChecks_log s s3 (c.source ++ "/" ++ c.dialog.bullet) oc3
    set s4 := s3.log (.assetCheck (c.source ++ "/" ++ c.dialog.bullet)) with hs4
    rcases check_file_exists_cases (c.source ++ "/" ++ c.dialog.lock) s4 with ⟨he5, _⟩ | ⟨he5, hp5, hq5⟩
    · exact Or.inl ⟨s4, by simp only [he5, Res.bind], oc4⟩
    rw [he5]; simp only [Res.bind]
    have oc5 := onlyChecks_log s s4 (c.source ++ "/" ++ c.dialog.lock) oc4
    set s5 := s4.log (.assetCheck (c.source ++ "/" ++ c.dialog.lock)) with hs5
    rcases check_file_exists_cases (c.source ++ "/" ++ c.progression.box) s5 with ⟨he6, _⟩ | ⟨he6, hp6, hq6⟩
    · exact Or.inl ⟨s5, by simp only [he6, Res.bind], oc5⟩
    rw [he6]; simp only [Res.bind]
    have oc6 := onlyChecks_log s s5 (c.source ++ "/" ++ c.progression.box) oc5
    set s6 := s5.log (.assetCheck (c.source ++ "/" ++ c.progression.box)) with hs6
    rcases check_file_exists_cases (c.source ++ "/" ++ c.progression.bar) s6 with ⟨he7, _⟩ | ⟨he7, hp7, hq7⟩
    · exact Or.inl ⟨s6, by simp only [he7, Res.bind], oc6⟩
    rw [he7]
    have oc7 := onlyChecks_log s s6 (c.source ++ "/" ++ c.progression.bar) oc6
    refine Or.inr ⟨s6.log (.assetCheck (c.source ++ "/" ++ c.progression.bar)), rfl, oc7, ?_⟩
    simp only [hs6, hs5, hs4, hs3, hs2, hs1, log_pathExists, log_isFile] at hp1 hq1 hp2 hq2 hp3 hq3 hp4 hq4 hp5 hq5 hp6 hq6 hp7 hq7
    refine ⟨⟨hvalid.1, hvalid.2⟩, ?_⟩
    intro p hp
    simp only [requiredAssetPaths, List.mem_cons, List.not_mem_nil, or_false] at hp
    rcases hp with rfl | rfl | rfl | rfl | rfl | rfl | rfl
    · exact ⟨hp1, hq1⟩
    · exact ⟨hp2, hq2⟩
    · exact ⟨hp3, hq3⟩
    · exact ⟨hp4, hq4⟩
    · exact ⟨hp5, hq5⟩
    · exact ⟨hp6, hq6⟩
    · exact ⟨hp7, hq7⟩

lemma check_input_assets_fail_of_missing (c : Config) (s : RunState)
    (h : missingRequiredAsset c s) :
    ∃ s', check_input_assets c s = .fail (.exit (-1)) s' ∧ OnlyChecks s s' := by
  rcases check_input_assets_cases c s with hfail | ⟨s', _, _, hall⟩
  · exact hfail
  · exact absurd hall h

lemma extract_frames_ok (w : World) (vp out : String) (fps : ℕ) (s : RunState)
    (pr : ProbeResult) (hp : w.probe vp = some pr) (hd : pr.duration ≠ 0) :
    extract_frames_from_video w vp out fps s =
      .ok (estimatedExtracts pr fps)
        { s with files := emittedFrameFiles w out ++ s.files,
                 trace := s.trace ++ [.frameExtraction vp out fps] } := by
  simp [extract_frames_from_video, hp, hd]

/-- Shape of every successful `build_theme` run: availability prints,
possibly one directory creation, then — in this order — the descriptor
write, the frame extraction, and the script write carrying the
line-103 estimate for the probed video. -/
lemma build_theme_ok_shape (w : World) (c : Config) (s s' : RunState)
    (h : build_theme w c s = .ok () s') :
    ∃ (pr : ProbeResult) (t0 t1 : List Event),
      w.probe (c.source ++ "/" ++ c.animation) = some pr ∧ pr.duration ≠ 0 ∧
      (∀ e ∈ t0, Event.isAssetCheck e = true) ∧
      (t1 = [] ∨ t1 = [.dirCreate c.build]) ∧
      s'.trace = s.trace ++ t0 ++ t1 ++
        [.fileWrite (c.build ++ "/" ++ c.name ++ ".plymouth") (plymouthFileContent c),
         .frameExtraction (c.source ++ "/" ++ c.animation) c.build c.fps,
         .fileWrite (c.build ++ "/" ++ c.name ++ ".script")
           (plymouthScriptContent (estimatedExtracts pr c.fps))] := by
  unfold build_theme at h
  rcases check_input_assets_cases c s with ⟨s1, he1, _⟩ | ⟨s1, he1, oc1, _⟩
  · rw [he1] at h; exact absurd h (by simp [Res.bind])
  rw [he1] at h; simp only [Res.bind] at h
  rcases prepare_build_directory_cases c.build s1 with ⟨he2, _⟩ | ⟨s2, he2, hf2, hdt2⟩
  · rw [he2] at h; exact absurd h (by simp [Res.bind])
  rw [he2] at h; simp only [Res.bind] at h
  cases hpr : w.probe (c.source ++ "/" ++ c.animation) with
  | none =>
    rw [show extract_frames_from_video w (c.source ++ "/" ++ c.animation) c.build c.fps
          (write_plymouth_file c s2) =
        .fail (.exn "ffmpeg probe failed") (write_plymouth_file c s2) from by
      simp [extract_frames_from_video, hpr]] at h
    exact absurd h (by simp [Res.bind])
  | some pr =>
    by_cases hd : pr.duration = 0
    · rw [show extract_frames_from_video w (c.source ++ "/" ++ c.animation) c.build c.fps
            (write_plymouth_file c s2) =
          .fail (.exn "ZeroDivisionError") (write_plymouth_file c s2) from by
        simp [extract_frames_from_video, hpr, hd]] at h
      exact absurd h (by simp [Res.bind])
    · rw [extract_frames_ok w _ _ _ _ pr hpr hd] at h
      simp only [Res.bind, Res.ok.injEq, true_and] at h
      obtain ⟨hf1, hd1, t0, ht0, hall0⟩ := oc1
      rcases hdt2 with ⟨hds, hts⟩ | ⟨hds, hts⟩
      · refine ⟨pr, t0, [], rfl, hd, hall0, Or.inl rfl, ?_⟩
        subst h
        simp [write_plymouth_script, write_plymouth_file, RunState.write, hts, ht0]
      · refine ⟨pr, t0, [.dirCreate c.build], rfl, hd, hall0, Or.inr rfl, ?_⟩
        subst h
        simp [write_plymouth_script, write_plymouth_file, RunState.write, hts, ht0]

lemma onlyChecks_filter_isOutput (s s' : RunState) (hs : s.trace = [])
    (oc : OnlyChecks s s') : s'.trace.filter Event.isOutput = [] := by
  obtain ⟨_, _, t, ht, hall⟩ := oc
  rw [ht, hs, List.nil_append]
  exact filter_isOutput_of_checks t hall

/-- When the build path is a regular file, `build_theme` fails with
exit code -1 (either at validation or at directory preparation) and
performs no output effect. -/
lemma build_theme_fail_of_buildfile (w : World) (c : Config)
    (h : (initState w).isFile c.build = true) :
    ∃ s', build_theme w c (initState w) = .fail (.exit (-1)) s' ∧
      OnlyChecks (initState w) s' := by
  rcases check_input_assets_cases c (initState w) with ⟨s1, he, oc⟩ | ⟨s1, he, oc, _⟩
  · refine ⟨s1, ?_, oc⟩
    unfold build_theme
    simp only [he, Res.bind]
  · have hf1 : s1.isFile c.build = true := by
      rw [onlyChecks_isFile _ _ _ oc]; exact h
    refine ⟨s1, ?_, oc⟩
    unfold build_theme
    simp only [he, Res.bind, prepare_build_directory_fail_of_isFile c.build s1 hf1]

lemma mainRun_nil_some (w : World) (d : JDict)
    (h : w.readConfig "config.json" = some d) :
    mainRun w [] = runWithDict w (pyUpdate defaultConfiguration d) := by
  unfold mainRun
  simp [getoptC, getoptGo, chooseConfigFile, h]

lemma mainRun_nil_none (w : World) (h : w.readConfig "config.json" = none) :
    mainRun w [] = runWithDict w defaultConfiguration := by
  unfold mainRun
  simp [getoptC, getoptGo, chooseConfigFile, h]

lemma classifyArg_badopt (a : String) (c : Char) (cs : List Char)
    (ha : a.data = '-' :: c :: cs) (h2 : c ≠ 'c') (h3 : ¬(c = '-' ∧ cs = [])) :
    classifyArg a = .badopt := by
  unfold classifyArg
  rw [ha]
  have hb : (decide (c = '-') && cs.isEmpty) = false := by
    by_cases hcd : c = '-'
    · subst hcd
      cases cs with
      | nil => exact absurd ⟨rfl, rfl⟩ h3
      | cons x xs => simp
    · simp [hcd]
  simp [hb, h2]

lemma getoptC_unrecognized (a : String) (rest : List String) (c : Char) (cs : List Char)
    (ha : a.data = '-' :: c :: cs) (h2 : c ≠ 'c') (h3 : ¬(c = '-' ∧ cs = [])) :
    getoptC (a :: rest) = .error () := by
  unfold getoptC getoptGo
  rw [classifyArg_badopt a c cs ha h2 h3]

/-! ### Dictionary-merge lemmas -/

lemma get_set_self (d : JDict) (k : String) (v : JValue) :
    JDict.get (JDict.set d k v) k = some v := by
  induction d with
  | nil => simp [JDict.set, JDict.get]
  | cons kv rest ih =>
    obtain ⟨k', v'⟩ := kv
    by_cases h : k' = k
    · subst h; simp [JDict.set, JDict.get]
    · simp [JDict.set, JDict.get, h, ih]

lemma get_set_ne (d : JDict) (k k' : String) (v : JValue) (h : k' ≠ k) :
    JDict.get (JDict.set d k v) k' = JDict.get d k' := by
  induction d with
  | nil =>
    simp [JDict.set, JDict.get]
    intro hk
    exact absurd hk.symm h
  | cons kv rest ih =>
    obtain ⟨k0, v0⟩ := kv
    by_cases h0 : k0 = k
    · subst h0
      have hne : ¬ (k0 = k') := fun hh => h (hh.symm)
      simp [JDict.set, JDict.get, hne]
    · simp [JDict.set, JDict.get, h0, ih]

lemma pyUpdate_cons (base : JDict) (kv : String × JValue) (rest : JDict) :
    pyUpdate base (kv :: rest) = pyUpdate (JDict.set base kv.1 kv.2) rest := rfl

lemma pyUpdate_get_not_mem (base user : JDict) (k : String)
    (h : k ∉ user.map Prod.fst) :
    JDict.get (pyUpdate base user) k = JDict.get base k := by
  induction user generalizing base with
  | nil => rfl
  | cons kv rest ih =>
    simp only [List.map_cons, List.mem_cons, not_or] at h
    rw [pyUpdate_cons, ih _ h.2, get_set_ne _ _ _ _ h.1]

/-- `dict.update` is a shallow top-level overwrite: when the user dict
binds a key (its keys being unique, as for any parsed JSON object), the
merged dict carries exactly the user's value for that key. -/
lemma pyUpdate_get_mem (base user : JDict) (k : String) (v : JValue)
    (hnd : (user.map Prod.fst).Nodup) (h : JDict.get user k = some v) :
    JDict.get (pyUpdate base user) k = some v := by
  induction user generalizing base with
  | nil => simp [JDict.get] at h
  | cons kv rest ih =>
    obtain ⟨k0, v0⟩ := kv
    simp only [List.map_cons, List.nodup_cons] at hnd
    rw [pyUpdate_cons]
    by_cases hk : k0 = k
    · subst hk
      have hv : v0 = v := by
        have h' := h
        simp [JDict.get] at h'
        exact h'
      subst hv
      rw [pyUpdate_get_not_mem _ rest k0 hnd.1, get_set_self]
    · simp only [JDict.get, if_neg hk] at h
      exact ih _ hnd.2 h

/-! ### Claim theorems -/

lemma pyInt_eq_floor (q : ℚ) (h : 0 ≤ q) : pyInt q = ⌊q⌋ := if_pos h

/-- C1: for every probed video with positive duration, the frame
extractor derives the source frame rate as `floor(total_frames /
duration)` and returns an estimated output frame count equal to
`floor(duration) * target_fps`; in particular a 10-second video at
target fps 25 yields 250. -/
theorem extract_frames_estimate_spec (w : World) (vp out : String) (fps : ℕ)
    (s : RunState) (pr : ProbeResult)
    (hpos : 0 < pr.duration) (hp : w.probe vp = some pr) :
    sourceFps pr = ⌊(pr.nb_frames : ℚ) / pr.duration⌋ ∧
    estimatedExtracts pr fps = ⌊pr.duration⌋ * (fps : ℤ) ∧
    extract_frames_from_video w vp out fps s =
      .ok (⌊pr.duration⌋ * (fps : ℤ))
        { s with files := emittedFrameFiles w out ++ s.files,
                 trace := s.trace ++ [.frameExtraction vp out fps] } ∧
    (pr.duration = 10 → fps = 25 → estimatedExtracts pr fps = 250) := by
  have hne : pr.duration ≠ 0 := ne_of_gt hpos
  have h2 : estimatedExtracts pr fps = ⌊pr.duration⌋ * (fps : ℤ) := by
    unfold estimatedExtracts
    rw [pyInt_eq_floor pr.duration hpos.le]
  refine ⟨?_, h2, ?_, ?_⟩
  · unfold sourceFps
    exact pyInt_eq_floor _ (div_nonneg (Nat.cast_nonneg _) hpos.le)
  · rw [extract_frames_ok w vp out fps s pr hp hne, h2]
  · intro h10 h25
    rw [h2, h10, h25]
    norm_num

/-- Witness for C1 at the concrete 10-second, 300-frame video of
`wOk` and target fps 25. -/
theorem extract_frames_estimate_spec_witness :
    (0 : ℚ) < probeTen.duration ∧ estimatedExtracts probeTen 25 = 250 :=
  ⟨by decide,
   (extract_frames_estimate_spec wOk "./source/animation.mp4" "./build" 25
      { files := [], dirs := [], trace := [] } probeTen (by decide) rfl).2.2.2 rfl rfl⟩

/-- C2: whenever a required asset (source directory, animation video,
or any dialog/progression image) is missing, the run fails with a
non-zero exit code before producing any output: no directory is
created, no file is written, no frame extraction happens. -/
theorem missing_asset_no_outputs (w : World) (c : Config)
    (h : missingRequiredAsset c (initState w)) :
    ∃ (code : ℤ) (s' : RunState),
      build_theme w c (initState w) = .fail (.exit code) s' ∧ code ≠ 0 ∧
      s'.files = w.files ∧ s'.dirs = w.dirs ∧
      s'.trace.filter Event.isOutput = [] := by
  obtain ⟨s', he, oc⟩ := check_input_assets_fail_of_missing c (initState w) h
  refine ⟨-1, s', ?_, by norm_num, oc.1, oc.2.1, ?_⟩
  · unfold build_theme
    simp only [he, Res.bind]
  · obtain ⟨_, _, t, ht, hall⟩ := oc
    rw [ht]
    have hi : (initState w).trace = [] := rfl
    rw [hi, List.nil_append]
    exact filter_isOutput_of_checks t hall

/-- Witness for C2: the default configuration against an environment
whose source directory contains no files. -/
theorem missing_asset_no_outputs_witness :
    missingRequiredAsset defaultRecord (initState wEmpty) ∧
    ∃ (code : ℤ) (s' : RunState),
      build_theme wEmpty defaultRecord (initState wEmpty) = .fail (.exit code) s' ∧
      code ≠ 0 ∧ s'.files = wEmpty.files ∧ s'.dirs = wEmpty.dirs ∧
      s'.trace.filter Event.isOutput = [] :=
  ⟨by decide, missing_asset_no_outputs wEmpty defaultRecord (by decide)⟩

/-- C9: a missing required asset (or invalid source directory) makes
the process exit with status -1 specifically — the same code the
build-path-conflict error uses. -/
theorem missing_asset_exit_code_minus_one :
    (∀ (w : World) (c : Config), missingRequiredAsset c (initState w) →
      ∃ s', build_theme w c (initState w) = .fail (.exit (-1)) s') ∧
    (∀ (p : String) (s : RunState), s.isFile p = true →
      prepare_build_directory p s = .fail (.exit (-1)) s) := by
  constructor
  · intro w c h
    obtain ⟨s', he, _⟩ := check_input_assets_fail_of_missing c (initState w) h
    refine ⟨s', ?_⟩
    unfold build_theme
    simp only [he, Res.bind]
  · exact fun p s h => prepare_build_directory_fail_of_isFile p s h

/-- Witness for C9: both branches at concrete inputs. -/
theorem missing_asset_exit_code_minus_one_witness :
    (∃ s', build_theme wEmpty defaultRecord (initState wEmpty) = .fail (.exit (-1)) s') ∧
    prepare_build_directory "./build" stFileBuild = .fail (.exit (-1)) stFileBuild :=
  ⟨missing_asset_exit_code_minus_one.1 wEmpty defaultRecord (by decide),
   missing_asset_exit_code_minus_one.2 "./build" stFileBuild (by decide)⟩

set_option maxRecDepth 8192 in
/-- C3 counterexample: in a healthy default run the theme descriptor
file is written at trace index 8, before the frame extraction at index
9 — the descriptor write does not come after extraction. -/
theorem descriptor_written_before_extraction :
    build_theme wOk defaultRecord (initState wOk) =
      .ok () (Res.state (build_theme wOk defaultRecord (initState wOk))) ∧
    writeIdx (Res.state (build_theme wOk defaultRecord (initState wOk))).trace
      "./build/custom.plymouth" = some 8 ∧
    extractionIdx (Res.state (build_theme wOk defaultRecord (initState wOk))).trace =
      some 9 ∧
    (8 : ℕ) < 9 := by
  refine ⟨by decide, by decide, by decide, by decide⟩

/-- C3 (amended): in every successful run the file-producing events
happen in the order descriptor write, then frame extraction, then
script write — the script is written after extraction, the descriptor
before it. -/
theorem output_event_order (w : World) (c : Config) (s' : RunState) (pr : ProbeResult)
    (hpr : w.probe (c.source ++ "/" ++ c.animation) = some pr)
    (h : build_theme w c (initState w) = .ok () s') :
    s'.trace.filter Event.isFileOp =
      [.fileWrite (c.build ++ "/" ++ c.name ++ ".plymouth") (plymouthFileContent c),
       .frameExtraction (c.source ++ "/" ++ c.animation) c.build c.fps,
       .fileWrite (c.build ++ "/" ++ c.name ++ ".script")
         (plymouthScriptContent (estimatedExtracts pr c.fps))] := by
  obtain ⟨pr', t0, t1, hpr', hd, hall, ht1, htr⟩ :=
    build_theme_ok_shape w c (initState w) s' h
  rw [hpr] at hpr'
  have hpp : pr = pr' := Option.some_inj.mp hpr'
  subst hpp
  rw [htr]
  have hi : (initState w).trace = [] := rfl
  rw [hi, List.nil_append]
  rcases ht1 with rfl | rfl <;>
    simp [List.filter_append, filter_isFileOp_of_checks t0 hall, Event.isFileOp]

/-- Witness for C3's amended statement at the second-run environment. -/
theorem output_event_order_witness :
    (Res.state (build_theme wOk2 defaultRecord (initState wOk2))).trace.filter
        Event.isFileOp =
      [.fileWrite "./build/custom.plymouth" (plymouthFileContent defaultRecord),
       .frameExtraction "./source/animation.mp4" "./build" 25,
       .fileWrite "./build/custom.script"
         (plymouthScriptContent (estimatedExtracts probeTen 25))] :=
  output_event_order wOk2 defaultRecord
    (Res.state (build_theme wOk2 defaultRecord (initState wOk2))) probeTen rfl rfl

set_option maxRecDepth 8192 in
/-- C4 counterexample: with the build path occupied by a regular file
and all assets present, the run does fail with exit -1 and creates no
directory, but only after the asset validation has run — its seven
availability prints are in the trace, so the failure does not precede
every asset-validation side effect. -/
theorem buildfile_after_validation :
    (initState wFileBuild).isFile defaultRecord.build = true ∧
    build_theme wFileBuild defaultRecord (initState wFileBuild) =
      .fail (.exit (-1))
        (Res.state (build_theme wFileBuild defaultRecord (initState wFileBuild))) ∧
    (Res.state (build_theme wFileBuild defaultRecord (initState wFileBuild))).trace.countP
      Event.isAssetCheck = 7 := by
  refine ⟨by decide, by decide, by decide⟩

/-- C4 (amended): whenever the configured build path exists as a
regular file, the run fails with exit code -1 before any directory is
created and before any file or frame is written; asset validation runs
first and may print availability lines. -/
theorem buildfile_fails_before_outputs (w : World) (c : Config)
    (h : (initState w).isFile c.build = true) :
    ∃ s', build_theme w c (initState w) = .fail (.exit (-1)) s' ∧
      s'.files = w.files ∧ s'.dirs = w.dirs ∧
      s'.trace.filter Event.isOutput = [] := by
  obtain ⟨s', he, oc⟩ := build_theme_fail_of_buildfile w c h
  exact ⟨s', he, oc.1, oc.2.1, onlyChecks_filter_isOutput _ _ rfl oc⟩

/-- Witness for C4's amended statement. -/
theorem buildfile_fails_before_outputs_witness :
    (initState wFileBuild).isFile defaultRecord.build = true ∧
    ∃ s', build_theme wFileBuild defaultRecord (initState wFileBuild) =
        .fail (.exit (-1)) s' ∧
      s'.files = wFileBuild.files ∧ s'.dirs = wFileBuild.dirs ∧
      s'.trace.filter Event.isOutput = [] :=
  ⟨by decide, buildfile_fails_before_outputs wFileBuild defaultRecord (by decide)⟩

/-- C7: the descriptor and script files are deterministic functions of
the configuration and the probed video: any two successful runs of the
same configuration whose probes agree (for instance a rerun against
the already-existing build directory) write byte-identical files. -/
theorem rerun_writes_identical (c : Config) (w1 w2 : World) (s1 s2 : RunState)
    (hp : w1.probe (c.source ++ "/" ++ c.animation) =
          w2.probe (c.source ++ "/" ++ c.animation))
    (h1 : build_theme w1 c (initState w1) = .ok () s1)
    (h2 : build_theme w2 c (initState w2) = .ok () s2) :
    writtenFiles s1.trace = writtenFiles s2.trace := by
  obtain ⟨pr1, t0, t1, hpr1, _, hall1, ht11, htr1⟩ :=
    build_theme_ok_shape w1 c (initState w1) s1 h1
  obtain ⟨pr2, u0, u1, hpr2, _, hall2, ht21, htr2⟩ :=
    build_theme_ok_shape w2 c (initState w2) s2 h2
  rw [hpr1, hpr2] at hp
  have hpp : pr1 = pr2 := Option.some_inj.mp hp
  subst hpp
  rw [htr1, htr2]
  have hi1 : (initState w1).trace = [] := rfl
  have hi2 : (initState w2).trace = [] := rfl
  rw [hi1, hi2, List.nil_append, List.nil_append]
  rcases ht11 with rfl | rfl <;> rcases ht21 with rfl | rfl <;>
    simp only [writtenFiles_append, writtenFiles_of_checks t0 hall1,
      writtenFiles_of_checks u0 hall2, writtenFiles_nil, writtenFiles_dirCreate,
      List.nil_append, List.append_nil]

/-- Witness for C7: a first run (no build directory) and a second run
(build directory existing) write the same files. -/
theorem rerun_writes_identical_witness :
    writtenFiles (Res.state (build_theme wOk defaultRecord (initState wOk))).trace =
    writtenFiles (Res.state (build_theme wOk2 defaultRecord (initState wOk2))).trace :=
  rerun_writes_identical defaultRecord wOk wOk2
    (Res.state (build_theme wOk defaultRecord (initState wOk)))
    (Res.state (build_theme wOk2 defaultRecord (initState wOk2))) rfl rfl rfl

/-- C6: the theme descriptor written into `<build>/<name>.plymouth`
carries the `[Plymouth Theme]` section (Name, Description,
ModuleName=script) and the `[script]` section (ImageDir, ScriptFile
joined from the install directory and theme name); with a user file
containing only `{"name": "foo"}` the Name line reads `foo` and every
other field keeps its built-in default. -/
theorem descriptor_content_spec :
    (∀ (w : World) (s' : RunState),
      w.readConfig "config.json" = some fooOverride →
      mainRun w [] = .ok () s' →
      ("./build/foo.plymouth",
        "[Plymouth Theme]\nName=foo\nDescription=A custom theme for Plymouth\nModuleName=script\n\n[script]\nImageDir=/usr/share/plymouth/themes/foo\nScriptFile=/usr/share/plymouth/themes/foo/foo.script\n")
        ∈ writtenFiles s'.trace) ∧
    (∀ (w : World) (c : Config) (s' : RunState),
      build_theme w c (initState w) = .ok () s' →
      (c.build ++ "/" ++ c.name ++ ".plymouth", plymouthFileContent c) ∈
        writtenFiles s'.trace) := by
  have hmem : ∀ (w : World) (c : Config) (s' : RunState),
      build_theme w c (initState w) = .ok () s' →
      (c.build ++ "/" ++ c.name ++ ".plymouth", plymouthFileContent c) ∈
        writtenFiles s'.trace := by
    intro w c s' h
    obtain ⟨pr, t0, t1, _, _, hall, ht1, htr⟩ :=
      build_theme_ok_shape w c (initState w) s' h
    rw [htr]
    have hi : (initState w).trace = [] := rfl
    rw [hi, List.nil_append]
    rcases ht1 with rfl | rfl <;>
      simp [writtenFiles_append, writtenFiles_of_checks t0 hall, writtenFiles]
  constructor
  · intro w s' hr h
    rw [mainRun_nil_some w fooOverride hr] at h
    have hrun : runWithDict w (pyUpdate defaultConfiguration fooOverride) =
        build_theme w fooRecord (initState w) := rfl
    rw [hrun] at h
    exact hmem w fooRecord s' h
  · exact hmem

/-- Witness for C6 in the environment whose `config.json` holds only
the name override. -/
theorem descriptor_content_spec_witness :
    wFoo.readConfig "config.json" = some fooOverride ∧
    ("./build/foo.plymouth",
      "[Plymouth Theme]\nName=foo\nDescription=A custom theme for Plymouth\nModuleName=script\n\n[script]\nImageDir=/usr/share/plymouth/themes/foo\nScriptFile=/usr/share/plymouth/themes/foo/foo.script\n")
      ∈ writtenFiles (Res.state (mainRun wFoo [])).trace :=
  ⟨rfl, descriptor_content_spec.1 wFoo (Res.state (mainRun wFoo [])) rfl rfl⟩

/-- C8: the exit-code mapping — exit 1 on an unrecognized option word,
exit 2 when an explicitly requested configuration file is missing,
exit -1 when the (default-configuration) build path is a regular file,
and a missing default `config.json` is non-fatal: the run proceeds
with the built-in defaults. -/
theorem exit_code_mapping :
    (∀ (w : World) (a : String) (rest : List String) (c : Char) (cs : List Char),
      a.data = '-' :: c :: cs → c ≠ 'c' → ¬(c = '-' ∧ cs = []) →
      mainRun w (a :: rest) = .fail (.exit 1) (initState w)) ∧
    (∀ (w : World) (path : String), w.readConfig path = none →
      mainRun w ["-c", path] = .fail (.exit 2) (initState w)) ∧
    (∀ w : World, w.readConfig "config.json" = none →
      (initState w).isFile "./build" = true →
      ∃ s', mainRun w [] = .fail (.exit (-1)) s') ∧
    (∀ w : World, w.readConfig "config.json" = none →
      mainRun w [] = build_theme w defaultRecord (initState w)) := by
  have hdflt : ∀ w : World, w.readConfig "config.json" = none →
      mainRun w [] = build_theme w defaultRecord (initState w) := by
    intro w h
    rw [mainRun_nil_none w h]
    rfl
  refine ⟨?_, ?_, ?_, hdflt⟩
  · intro w a rest c cs ha h2 h3
    unfold mainRun
    rw [getoptC_unrecognized a rest c cs ha h2 h3]
  · intro w path h
    unfold mainRun
    rw [show getoptC ["-c", path] = Except.ok [("-c", path)] from rfl]
    simp [chooseConfigFile, h]
  · intro w h hfile
    obtain ⟨s', he, _⟩ := build_theme_fail_of_buildfile w defaultRecord hfile
    exact ⟨s', by rw [hdflt w h]; exact he⟩

/-- Witness for C8: all four branches at concrete inputs. -/
theorem exit_code_mapping_witness :
    mainRun wOk ["-x"] = .fail (.exit 1) (initState wOk) ∧
    mainRun wOk ["-c", "missing.json"] = .fail (.exit 2) (initState wOk) ∧
    (∃ s', mainRun wFileBuild [] = .fail (.exit (-1)) s') ∧
    mainRun wOk [] = build_theme wOk defaultRecord (initState wOk) :=
  ⟨exit_code_mapping.1 wOk "-x" [] 'x' [] rfl (by decide) (by decide),
   exit_code_mapping.2.1 wOk "missing.json" rfl,
   exit_code_mapping.2.2.1 wFileBuild rfl (by decide),
   exit_code_mapping.2.2.2 wOk rfl⟩

/-- C10: the configuration merge is a top-level shallow overwrite
(`dict.update`): a user value bound at a top-level key — in particular
a `dialog` or `progression` object — replaces the built-in value for
that key wholesale, so nested defaults omitted from the user object
(such as the dialog `entry` path) are lost rather than retained. -/
theorem shallow_merge_replaces_nested :
    (∀ (user : JDict) (k : String) (v : JValue),
      (user.map Prod.fst).Nodup → JDict.get user k = some v →
      JDict.get (pyUpdate defaultConfiguration user) k = some v) ∧
    jGetObj (pyUpdate defaultConfiguration dialogPartialOverride) "dialog" =
      some [("box", JValue.str "b.png")] ∧
    (jGetObj (pyUpdate defaultConfiguration dialogPartialOverride) "dialog").bind
      (fun d => jGetStr d "entry") = none ∧
    (jGetObj defaultConfiguration "dialog").bind (fun d => jGetStr d "entry") =
      some "entry.png" := by
  refine ⟨?_, rfl, rfl, rfl⟩
  intro user k v hnd h
  exact pyUpdate_get_mem defaultConfiguration user k v hnd h

/-- Witness for C10 at the partial dialog override. -/
theorem shallow_merge_replaces_nested_witness :
    (dialogPartialOverride.map Prod.fst).Nodup ∧
    JDict.get (pyUpdate defaultConfiguration dialogPartialOverride) "dialog" =
      some (JValue.obj [("box", JValue.str "b.png")]) :=
  ⟨by simp [dialogPartialOverride],
   shallow_merge_replaces_nested.1 dialogPartialOverride "dialog"
     (JValue.obj [("box", JValue.str "b.png")]) (by simp [dialogPartialOverride]) rfl⟩

set_option maxRecDepth 16384 in
/-- C5 (frame numbering): with the external resampler at ffmpeg's
documented image2 default (`start_number` 1, since the code passes the
bare pattern `animation_frame_%d.png` on line 107) a 10-second
25-fps extraction that emits 250 frames names them
`animation_frame_1.png` … `animation_frame_250.png`, while the
generated script's loop `for (i = 0; i < 250; i++)` loads
`animation_frame_0.png` … `animation_frame_249.png`: the first
referenced image is never produced and the last produced image is
never referenced, contradicting the claimed zero-based scheme. -/
theorem frame_numbering_mismatch :
    estimatedExtracts probeTen 25 = 250 ∧
    wBug.ffmpegStart = 1 ∧ wBug.actualFrames = 250 ∧
    frameName 0 ∈ scriptReferencedImages (estimatedExtracts probeTen 25) ∧
    frameName 0 ∉ emittedFrameNames wBug ∧
    frameName 250 ∈ emittedFrameNames wBug ∧
    frameName 250 ∉ scriptReferencedImages (estimatedExtracts probeTen 25) := by
  refine ⟨by decide, rfl, rfl, by decide, by decide, by decide, by decide⟩

end Plymouth
